import Mathlib

/-!
Shallow embedding of the CASSIS cluster-border detection core
(`antismash.detection.cassis`).  The implementation files of the module are
not shipped with this snapshot of the repository; only the test suite
(`src/antismash/detection/cassis/test/test_cassis.py`) is.  Every definition
below therefore carries a doc comment starting `Modelled from the spec:`
naming what is missing; the models follow the spec's words (§2–§4.6), with
concrete behaviour pinned down by the expectations of the in-repository test
suite wherever the spec leaves details open.  Mutable process-wide tunables
(`MAX_PERCENTAGE`, `MAX_GAP_LENGTH`) are threaded explicitly as a `Config`
value, as the spec's design notes (§9) prescribe for a faithful restatement.
-/

/-- Modelled from the spec: a `Gene` of the external record model (§3) —
locus tag, genomic interval `[start, stop)` and strand (1 or -1).  The
`core` flag models the "core biosynthetic" gene-function annotation used by
`get_anchor_gene_names` (test fixture marks gene4 and gene6 as core). -/
structure Gene where
  locus_tag : String
  start : Nat
  stop : Nat
  strand : Int
  core : Bool := false
deriving DecidableEq, Repr

/-- Modelled from the spec: the process-wide tunables `MAX_PERCENTAGE` and
`MAX_GAP_LENGTH` (§3), threaded explicitly (§9).  They enter this core only
through equality comparison in the cache-validity check, so the percentage is
carried as an integer-valued threshold. -/
structure Config where
  max_percentage : Int
  max_gap_length : Int
deriving DecidableEq, Repr

/-- Zero-pads a natural number to two decimal digits, as python `%02d`. -/
def pad2 (n : Nat) : String :=
  if n < 10 then "0" ++ toString n else toString n

/-- Modelled from the spec: `Motif(plus, minus, score)` (§4.3) — the
upstream/downstream promoter-pooling window of one motif-search run. -/
structure Motif where
  plus : Nat
  minus : Nat
  score : Option Int := none
deriving DecidableEq, Repr

/-- Modelled from the spec: the `pairing_string` property (§4.3) — derived on
every read from the current `plus` and `minus`, formatted `+NN_-NN`. -/
def Motif.pairing_string (m : Motif) : String :=
  "+" ++ pad2 m.plus ++ "_-" ++ pad2 m.minus

/-- Modelled from the spec: a `Promoter` / `CombinedPromoter` (§3), flattened
into one structure: `second_gene = none` gives a plain promoter whose id is
the gene's locus tag, `second_gene = some g` gives a combined (bidirectional)
promoter whose id is `geneA+geneB`.  Coordinates are the inclusive genomic
`start`/`end` positions the python objects expose. -/
structure Promoter where
  gene_name : String
  second_gene : Option String := none
  start : Nat
  stop : Nat
  seq : String := ""
deriving DecidableEq, Repr

/-- Modelled from the spec: `Promoter.get_id` — gene locus tag for a single
promoter, `geneA+geneB` for a combined one. -/
def Promoter.get_id (p : Promoter) : String :=
  match p.second_gene with
  | none => p.gene_name
  | some g => p.gene_name ++ "+" ++ g

/-- Modelled from the spec: `ClusterMarker` (§3) — candidate cluster boundary
anchored at one gene, holding the producing motif, the promoter identifier it
maps to (unset at construction) and an abundance count. -/
structure ClusterMarker where
  gene : String
  motif : Motif
  promoter : Option String := none
  abundance : Nat := 1
deriving DecidableEq, Repr

/-- Modelled from the spec and test suite: `ClusterMarker.__init__(gene,
motif)` stores the gene name and motif, leaves the promoter unset and sets
the abundance count to its default of 1 (test asserts `abundance == 1` on
fresh markers, also when the promoter later differs from the gene). -/
def mkClusterMarker (gene : String) (motif : Motif) : ClusterMarker :=
  { gene := gene, motif := motif, promoter := none, abundance := 1 }

/-- Modelled from the spec: explicit assignment of the `promoter` attribute;
no other field is touched. -/
def ClusterMarker.setPromoter (m : ClusterMarker) (p : String) : ClusterMarker :=
  { m with promoter := some p }

/-- Modelled from the spec: explicit assignment of the `abundance` attribute;
no other field is touched. -/
def ClusterMarker.setAbundance (m : ClusterMarker) (a : Nat) : ClusterMarker :=
  { m with abundance := a }

/-- Modelled from the spec: `ClusterPrediction` (§3) — an ordered pair of
start and end markers plus counts of genes and promoters spanned, counts
filled in by the caller (0 until set). -/
structure ClusterPrediction where
  start : ClusterMarker
  stop : ClusterMarker
  genes : Nat := 0
  promoters : Nat := 0
deriving DecidableEq, Repr

/-- Modelled from the spec: `ClusterBorder` (§3, §4.4) — the annotation
derived from an accepted prediction: genomic interval, tool tag and the
qualifiers `anchor`, `genes`, `promoters`, `gene_left`, `gene_right`. -/
structure ClusterBorder where
  start : Nat
  stop : Nat
  tool : String
  anchor : String
  genes : Nat
  promoters : Nat
  gene_left : String
  gene_right : String
deriving DecidableEq, Repr

/-- Modelled from the spec: the external annotated-record store (§3), reduced
to the accessors the core uses: identifier, sequence length, the gene list in
genomic order, and the cluster-border features written back into it.
`otherFeatures` counts the remaining (CDS etc.) features, relevant only to
feature-count bookkeeping. -/
structure Record where
  id : String
  seqLength : Nat
  genes : List Gene
  clusterBorders : List ClusterBorder := []
  otherFeatures : Nat := 0
deriving DecidableEq, Repr

/-- Modelled from the spec: interval overlap of two genes on the half-open
genomic intervals `[start, stop)` (§4.1). -/
def overlaps (a b : Gene) : Bool :=
  decide (a.start < b.stop) && decide (b.start < a.stop)

/-- Modelled from the spec: the greedy left-to-right worker of
`ignore_overlapping` (§4.1).  `kept` is the list of genes already accepted;
a gene is ignored exactly when it overlaps some gene accepted so far,
otherwise it is accepted and joins `kept` for the remaining genes. -/
def ignoreGo (kept : List Gene) : List Gene → List Gene × List Gene
  | [] => ([], [])
  | g :: rest =>
    if kept.any (fun k => overlaps k g) then
      ((ignoreGo kept rest).1, g :: (ignoreGo kept rest).2)
    else
      (g :: (ignoreGo (kept ++ [g]) rest).1, (ignoreGo (kept ++ [g]) rest).2)

/-- Modelled from the spec: `ignore_overlapping(genes) -> (kept, ignored)`
(§4.1), greedy left-to-right filtering starting from an empty accepted set. -/
def ignore_overlapping (genes : List Gene) : List Gene × List Gene :=
  ignoreGo [] genes

/-- Modelled from the spec: the transcription start site of a gene — the 5′
end given strand (§4.2): the left coordinate on the plus strand, the right
coordinate on the minus strand. -/
def Gene.tss (g : Gene) : Int :=
  if g.strand = 1 then (g.start : Int) else (g.stop : Int)

/-- Clips a genomic coordinate into the record's coordinate range
`0 .. len - 1` (inclusive positions), per the spec's "clipped to
`[0, record_length)`" (§4.2). -/
def clip (len : Nat) (x : Int) : Nat :=
  (max 0 (min x ((len : Int) - 1))).toNat

/-- Modelled from the spec: the merge test for two adjacent divergently
oriented genes (§4.2): the left gene transcribed on the minus strand, the
right one on the plus strand, with their raw upstream windows overlapping,
so that they share one intergenic regulatory region. -/
def facingOverlap (up : Int) (g h : Gene) : Bool :=
  decide (g.strand = -1) && decide (h.strand = 1) && decide (h.tss - up ≤ g.tss + up)

/-- Modelled from the spec: whether a gene's promoter was already merged into
its left neighbour's `CombinedPromoter` (§4.2), in which case the gene emits
no promoter of its own. -/
def mergedWithPrev (up : Int) (prev : Option Gene) (g : Gene) : Bool :=
  match prev with
  | some p => facingOverlap up p g
  | none => false

/-- Modelled from the spec: the promoter emitted for one gene (§4.2), given
its neighbours in the filtered gene list.  Plus strand: raw window
`[tss - up, tss + down]`, truncated to start right after the previous gene's
body when the window reaches into it.  Minus strand: raw window
`[tss - down, tss + up]`; merged with a facing plus-strand right neighbour
into a `CombinedPromoter` spanning `[tss - down, next.tss + down]`, else
truncated to end right before the next gene's body when the window reaches
into it.  Finally clipped to the record's coordinate range.  The nucleotide
payload lives in the external sequence store and is not modelled. -/
def buildPromoter (len : Nat) (up down : Int) (prev : Option Gene) (g : Gene)
    (next : Option Gene) : Promoter :=
  if g.strand = 1 then
    let rawStart := g.tss - up
    let s : Int :=
      match prev with
      | some p => if rawStart ≤ (p.stop : Int) then (p.stop : Int) + 1 else rawStart
      | none => rawStart
    { gene_name := g.locus_tag, second_gene := none,
      start := clip len s, stop := clip len (g.tss + down), seq := "" }
  else
    match next with
    | some h =>
      if facingOverlap up g h then
        { gene_name := g.locus_tag, second_gene := some h.locus_tag,
          start := clip len (g.tss - down), stop := clip len (h.tss + down), seq := "" }
      else
        let rawEnd := g.tss + up
        let e : Int := if (h.start : Int) ≤ rawEnd then (h.start : Int) - 1 else rawEnd
        { gene_name := g.locus_tag, second_gene := none,
          start := clip len (g.tss - down), stop := clip len e, seq := "" }
    | none =>
      { gene_name := g.locus_tag, second_gene := none,
        start := clip len (g.tss - down), stop := clip len (g.tss + up), seq := "" }

/-- Modelled from the spec: the left-to-right traversal of `get_promoters`
(§4.2), carrying the previous gene so a gene already merged into a combined
promoter is skipped. -/
def promotersAux (len : Nat) (up down : Int) : Option Gene → List Gene → List Promoter
  | _, [] => []
  | prev, g :: rest =>
    if mergedWithPrev up prev g then
      promotersAux len up down (some g) rest
    else
      buildPromoter len up down prev g rest.head? :: promotersAux len up down (some g) rest

/-- Modelled from the spec: `get_promoters(record, genes, upstream_tss,
downstream_tss)` (§4.2) — promoter intervals for the overlap-filtered gene
list, in genomic left-to-right order, with divergent facing neighbours merged
into combined promoters. -/
def get_promoters (record : Record) (genes : List Gene) (up down : Int) : List Promoter :=
  promotersAux record.seqLength up down none genes

/-- Modelled from the spec: `get_anchor_gene_names(record)` — the locus tags
of the genes carrying a core biosynthetic function annotation, in genomic
order. -/
def get_anchor_gene_names (record : Record) : List String :=
  (record.genes.filter (fun g => g.core)).map (fun g => g.locus_tag)

/-- The nine-gene fixture record built by `create_fake_record()` in the test
suite: sequence of length 49·196 = 9604, genes at the fixed coordinates and
strands, with gene4 and gene6 carrying the core annotation. -/
def testRecord : Record :=
  { id := "test", seqLength := 9604,
    genes :=
      [ { locus_tag := "gene1", start := 100, stop := 300, strand := 1 },
        { locus_tag := "gene2", start := 101, stop := 299, strand := -1 },
        { locus_tag := "gene3", start := 250, stop := 350, strand := 1 },
        { locus_tag := "gene4", start := 500, stop := 1000, strand := 1, core := true },
        { locus_tag := "gene5", start := 1111, stop := 1500, strand := -1 },
        { locus_tag := "gene6", start := 2000, stop := 2200, strand := -1, core := true },
        { locus_tag := "gene7", start := 2999, stop := 4000, strand := 1 },
        { locus_tag := "gene8", start := 4321, stop := 5678, strand := 1 },
        { locus_tag := "gene9", start := 6660, stop := 9000, strand := -1 } ] }

/-- Modelled from the spec: gene lookup in the record store by locus tag. -/
def findGene (record : Record) (name : String) : Option Gene :=
  record.genes.find? (fun g => g.locus_tag == name)

/-- Modelled from the spec: `create_cluster_borders(anchor, predictions,
record)` (§4.4) — for each prediction, resolve the start/end marker genes
back to genomic coordinates via the record's gene lookup and emit one
`ClusterBorder` with interval from the leftmost to the rightmost coordinate,
tool tag `"cassis"` and the qualifier set; a prediction whose gene cannot be
resolved in the record is skipped silently. -/
def create_cluster_borders (anchor : String) (clusters : List ClusterPrediction)
    (record : Record) : List ClusterBorder :=
  clusters.filterMap fun c =>
    match findGene record c.start.gene, findGene record c.stop.gene with
    | some l, some r =>
      some { start := l.start, stop := r.stop, tool := "cassis", anchor := anchor,
             genes := c.genes, promoters := c.promoters,
             gene_left := c.start.gene, gene_right := c.stop.gene }
    | _, _ => none

/-- Modelled from the spec: the full effect of a `create_cluster_borders`
call on the caller's state — the record it was given back (the function only
reads the record store, §4.4) together with the emitted borders. -/
def create_cluster_borders_call (anchor : String) (clusters : List ClusterPrediction)
    (record : Record) : Record × List ClusterBorder :=
  (record, create_cluster_borders anchor clusters record)

/-- Modelled from the spec: `record.add_cluster_border(border)` — the only
way a border becomes a feature of the record store (§4.4, §6). -/
def add_cluster_border (record : Record) (b : ClusterBorder) : Record :=
  { record with clusterBorders := record.clusterBorders ++ [b] }

/-- Modelled from the spec: `record.get_feature_count()` — genes, cluster
borders and the remaining features of the record store. -/
def featureCount (record : Record) : Nat :=
  record.genes.length + record.clusterBorders.length + record.otherFeatures

/-- Modelled from the spec: the serialized form of one cluster border inside
the results document (§4.5, §6): interval plus the full qualifier set. -/
structure BorderJson where
  start : Nat
  stop : Nat
  tool : String
  anchor : String
  genes : Nat
  promoters : Nat
  gene_left : String
  gene_right : String
deriving DecidableEq, Repr

/-- Modelled from the spec: the serialized form of one promoter (§4.5, §6):
identifier parts, interval and sequence payload. -/
structure PromoterJson where
  gene_name : String
  second_gene : Option String
  start : Nat
  stop : Nat
  seq : String
deriving DecidableEq, Repr

/-- Modelled from the spec: the serialized results document (§4.5, §6):
record identifier, the two tunables at serialization time, borders and
promoters. -/
structure CassisJson where
  record_id : String
  max_percentage : Int
  max_gap_length : Int
  borders : List BorderJson
  promoters : List PromoterJson
deriving DecidableEq, Repr

/-- Modelled from the spec: `CassisResults` (§3, §4.5) — record identifier,
cluster borders and promoters; borders and promoters start empty. -/
structure CassisResults where
  record_id : String
  borders : List ClusterBorder := []
  promoters : List Promoter := []
deriving DecidableEq, Repr

/-- Serialization of one border into the results document. -/
def borderToJson (b : ClusterBorder) : BorderJson :=
  { start := b.start, stop := b.stop, tool := b.tool, anchor := b.anchor,
    genes := b.genes, promoters := b.promoters,
    gene_left := b.gene_left, gene_right := b.gene_right }

/-- Reconstruction of one border from its stored fields. -/
def borderOfJson (b : BorderJson) : ClusterBorder :=
  { start := b.start, stop := b.stop, tool := b.tool, anchor := b.anchor,
    genes := b.genes, promoters := b.promoters,
    gene_left := b.gene_left, gene_right := b.gene_right }

/-- Serialization of one promoter into the results document. -/
def promoterToJson (p : Promoter) : PromoterJson :=
  { gene_name := p.gene_name, second_gene := p.second_gene,
    start := p.start, stop := p.stop, seq := p.seq }

/-- Reconstruction of one promoter from its stored fields. -/
def promoterOfJson (p : PromoterJson) : Promoter :=
  { gene_name := p.gene_name, second_gene := p.second_gene,
    start := p.start, stop := p.stop, seq := p.seq }

/-- Modelled from the spec: `CassisResults.to_json()` (§4.5) — the structured
document holding the record id, every border's interval and qualifiers, the
promoter list and the two tunables at serialization time. -/
def CassisResults.to_json (r : CassisResults) (cfg : Config) : CassisJson :=
  { record_id := r.record_id,
    max_percentage := cfg.max_percentage,
    max_gap_length := cfg.max_gap_length,
    borders := r.borders.map borderToJson,
    promoters := r.promoters.map promoterToJson }

/-- Modelled from the spec: `regenerate_previous_results(raw, record,
options)` (§4.5) — invalid (`none`) when the stored record id differs from
the supplied record's, or either stored tunable differs from the current one;
otherwise the `CassisResults` reconstructed from the stored fields. -/
def regenerate_previous_results (raw : CassisJson) (record : Record) (cfg : Config) :
    Option CassisResults :=
  if raw.record_id ≠ record.id then none
  else if raw.max_percentage ≠ cfg.max_percentage then none
  else if raw.max_gap_length ≠ cfg.max_gap_length then none
  else
    some { record_id := raw.record_id,
           borders := raw.borders.map borderOfJson,
           promoters := raw.promoters.map promoterOfJson }

/-- Modelled from the spec: the detection pipeline `detect` (§4.1–§4.4).
Motif discovery and scanning are external black boxes (§1), abstracted here
by `oracle`, which yields the accepted cluster predictions for each anchor
gene; the pipeline filters overlapping genes, builds promoters with the
standard distances, and converts each anchor's accepted predictions into
cluster borders, stamping the analysed record's identifier. -/
def detect (oracle : String → List ClusterPrediction) (record : Record)
    (_cfg : Config) : CassisResults :=
  { record_id := record.id,
    borders := (get_anchor_gene_names record).flatMap
      (fun a => create_cluster_borders a (oracle a) record),
    promoters := get_promoters record (ignore_overlapping record.genes).1 1000 50 }

/-- Modelled from the spec: `run_on_record(record, previous, options)` (§4.5)
with the detection entry point threaded as an explicit strategy (§9): reuse a
previous result whose record id matches, else run detection. -/
def run_on_record (detectFn : Record → Config → CassisResults) (record : Record)
    (previous : Option CassisResults) (cfg : Config) : CassisResults :=
  match previous with
  | some prev => if prev.record_id = record.id then prev else detectFn record cfg
  | none => detectFn record cfg

/-- Modelled from the spec and test suite: the pairing strings of the start
and end motifs of one anchor gene's accepted predictions — the subdirectories
of `meme/<anchor>` and `fimo/<anchor>` that survive cleanup (§4.6). -/
def acceptedPairings (preds : List (String × List ClusterPrediction)) (gene : String) :
    List String :=
  match preds.find? (fun ap => ap.1 == gene) with
  | some ap => ap.2.flatMap (fun c => [c.start.motif.pairing_string, c.stop.motif.pairing_string])
  | none => []

/-- Modelled from the spec and test suite: whether one `<gene>/<pairing>`
working directory survives `cleanup_outdir` (§4.6): directories of genes that
are not anchor genes are not visited; an anchor gene's directory survives
exactly when its pairing is among the pairing strings of that anchor's own
accepted predictions (an anchor without accepted predictions loses its whole
directory). -/
def keepDir (anchors : List String) (preds : List (String × List ClusterPrediction))
    (d : String × String) : Bool :=
  if anchors.contains d.1 then (acceptedPairings preds d.1).contains d.2 else true

/-- Modelled from the spec and test suite: `cleanup_outdir(anchor_genes,
cluster_predictions, options)` (§4.6) on the `meme/` and `fimo/` working
trees, each given as the list of `(gene, pairing)` directories present on
disk; returns the directories remaining after the deletions. -/
def cleanup_outdir (anchors : List String) (preds : List (String × List ClusterPrediction))
    (memeDirs fimoDirs : List (String × String)) :
    List (String × String) × List (String × String) :=
  (memeDirs.filter (keepDir anchors preds), fimoDirs.filter (keepDir anchors preds))

/-- A configuration holding the tunables' default values. -/
def defaultConfig : Config := { max_percentage := 14, max_gap_length := 2 }

/-- The cluster prediction built in `TestResults.test_regeneration`: start
marker at gene1 with `Motif(3, 3, score=1)`, promoter `"gene1"`, abundance 2;
end marker at gene4 with promoter `"gene3+gene4"`. -/
def regenCluster : ClusterPrediction :=
  { start := ((mkClusterMarker "gene1" { plus := 3, minus := 3, score := some 1 }).setPromoter
      "gene1").setAbundance 2,
    stop := (mkClusterMarker "gene4" { plus := 3, minus := 3, score := some 1 }).setPromoter
      "gene3+gene4" }

/-- The populated results bundle of `TestResults.test_regeneration`: borders
from one prediction anchored at gene1, plus three promoters. -/
def testResults : CassisResults :=
  { record_id := "test",
    borders := create_cluster_borders "gene1" [regenCluster] testRecord,
    promoters :=
      [ { gene_name := "gene1", start := 10, stop := 20, seq := "cgtacgtacgt" },
        { gene_name := "gene2", start := 30, stop := 40, seq := "cgtacgtacgt" },
        { gene_name := "gene3", second_gene := some "gene4", start := 50, stop := 60,
          seq := "cgtacgtacgt" } ] }

/-- The cluster prediction built in `TestCassisMethods.test_cleanup_outdir`:
start marker (gene1, +03_-03), end marker (gene4, +03_-03), anchored at
gene1. -/
def cleanupCluster : ClusterPrediction :=
  { start := (mkClusterMarker "gene1" { plus := 3, minus := 3, score := some 1 }).setPromoter
      "gene1",
    stop := (mkClusterMarker "gene4" { plus := 3, minus := 3, score := some 1 }).setPromoter
      "gene3+gene4",
    genes := 4, promoters := 3 }

/-- The working directories created on disk in `test_cleanup_outdir` (the
same four `<gene>/<pairing>` directories under `meme/` and under `fimo/`). -/
def testDirTree : List (String × String) :=
  [("gene1", "+03_-03"), ("gene1", "+04_-04"), ("gene4", "+03_-03"), ("gene4", "+04_-04")]

/-- C9: `Motif.pairing_string` is re-derived on every read from the current
`plus` and `minus` values, formatted `+NN_-NN` zero-padded to two digits:
`Motif(3,3)` gives `"+03_-03"`, after `plus := 4` it gives `"+04_-03"`, after
then `minus := 2` it gives `"+04_-02"`. -/
theorem motif_pairing_string_live :
    ({ plus := 3, minus := 3 } : Motif).pairing_string = "+03_-03"
    ∧ ({ ({ plus := 3, minus := 3 } : Motif) with plus := 4 }).pairing_string = "+04_-03"
    ∧ ({ { ({ plus := 3, minus := 3 } : Motif) with plus := 4 } with
          minus := 2 }).pairing_string = "+04_-02" := by
  decide

/-- C8: a newly constructed `ClusterMarker` has abundance 1; assigning the
promoter — even one differing from the marker's gene — leaves the abundance
at 1; the abundance changes only by explicit assignment. -/
theorem cluster_marker_abundance_default (g : String) (m : Motif) (p : String) (a : Nat)
    (hp : p ≠ g) :
    (mkClusterMarker g m).abundance = 1
    ∧ ((mkClusterMarker g m).setPromoter p).abundance = 1
    ∧ ((mkClusterMarker g m).setAbundance a).abundance = a :=
  ⟨rfl, rfl, rfl⟩

/-- Witness for C8 at the test's concrete values: gene `"gene4"` with the
differing promoter `"gene3+gene4"`. -/
theorem cluster_marker_abundance_default_witness :
    ("gene3+gene4" : String) ≠ "gene4"
    ∧ ((mkClusterMarker "gene4" { plus := 3, minus := 3, score := some 1 }).setPromoter
        "gene3+gene4").abundance = 1 :=
  ⟨by decide,
   (cluster_marker_abundance_default "gene4" { plus := 3, minus := 3, score := some 1 }
      "gene3+gene4" 2 (by decide)).2.1⟩

/-- C4: on the nine-gene fixture record with `upstream_tss = 1000` and
`downstream_tss = 50`, `get_promoters` applied to the overlap-filtered gene
list returns exactly six promoters whose interval list is
`[[0,150],[301,550],[1450,1999],[2150,3049],[4001,4371],[8950,9603]]`, in
ascending start order. -/
theorem get_promoters_fixture :
    (get_promoters testRecord (ignore_overlapping testRecord.genes).1 1000 50).map
        (fun p => (p.start, p.stop)) =
      [(0, 150), (301, 550), (1450, 1999), (2150, 3049), (4001, 4371), (8950, 9603)] := by
  decide

/-- Adding borders one at a time raises the feature count by one each. -/
theorem featureCount_foldl_add (bs : List ClusterBorder) (record : Record) :
    featureCount (bs.foldl add_cluster_border record) = featureCount record + bs.length := by
  induction bs generalizing record with
  | nil => simp
  | cons b rest ih =>
    rw [List.foldl_cons, ih]
    simp only [add_cluster_border, featureCount, List.length_append, List.length_cons,
      List.length_nil]
    omega

/-- C10: `create_cluster_borders` does not mutate the record — the record it
hands back is the record it was given, so its feature count is unchanged —
and the emitted borders become record features only through explicit
`add_cluster_border` calls, each raising the feature count by one. -/
theorem create_cluster_borders_frame (anchor : String) (clusters : List ClusterPrediction)
    (record : Record) :
    (create_cluster_borders_call anchor clusters record).1 = record
    ∧ featureCount (create_cluster_borders_call anchor clusters record).1 = featureCount record
    ∧ featureCount
        (((create_cluster_borders_call anchor clusters record).2).foldl add_cluster_border record)
      = featureCount record + (create_cluster_borders_call anchor clusters record).2.length :=
  ⟨rfl, rfl, featureCount_foldl_add _ record⟩

/-- Serializing then reconstructing one border is the identity. -/
theorem border_json_round (b : ClusterBorder) : borderOfJson (borderToJson b) = b := rfl

/-- Serializing then reconstructing one promoter is the identity. -/
theorem promoter_json_round (p : Promoter) : promoterOfJson (promoterToJson p) = p := rfl

/-- C1: round-trip law — for a `CassisResults` with non-empty borders and
promoters, `regenerate_previous_results` applied to its `to_json()` document,
the same record and the unchanged configuration returns a `CassisResults`
equal to the original, so with identical border intervals, identical border
qualifier mappings and an identical promoter list. -/
theorem results_round_trip (r : CassisResults) (record : Record) (cfg : Config)
    (hid : r.record_id = record.id) (hb : r.borders ≠ []) (hp : r.promoters ≠ []) :
    regenerate_previous_results (r.to_json cfg) record cfg = some r := by
  obtain ⟨rid, bs, ps⟩ := r
  simp only [CassisResults.to_json, regenerate_previous_results] at *
  simp [hid, List.map_map, Function.comp_def, border_json_round, promoter_json_round]

/-- Witness for C1: the populated results bundle of the regeneration test
round-trips on the fixture record. -/
theorem results_round_trip_witness :
    testResults.record_id = testRecord.id
    ∧ testResults.borders ≠ []
    ∧ testResults.promoters ≠ []
    ∧ regenerate_previous_results (testResults.to_json defaultConfig) testRecord defaultConfig
      = some testResults :=
  ⟨by decide, by decide, by decide,
   results_round_trip testResults testRecord defaultConfig (by decide) (by decide) (by decide)⟩

/-- C2: cache invalidation — `regenerate_previous_results` returns `none`
whenever the stored `MAX_PERCENTAGE` or `MAX_GAP_LENGTH` differs from the
current value or the supplied record's identifier differs from the stored
one; with unchanged tunables and a matching identifier it returns a
`CassisResults`. -/
theorem regenerate_cache_validity (raw : CassisJson) (record : Record) (cfg : Config) :
    ((raw.max_percentage ≠ cfg.max_percentage ∨ raw.max_gap_length ≠ cfg.max_gap_length
        ∨ raw.record_id ≠ record.id) →
      regenerate_previous_results raw record cfg = none)
    ∧ ((raw.max_percentage = cfg.max_percentage ∧ raw.max_gap_length = cfg.max_gap_length
        ∧ raw.record_id = record.id) →
      (regenerate_previous_results raw record cfg).isSome = true) := by
  constructor
  · intro h
    by_cases h1 : raw.record_id = record.id
    · by_cases h2 : raw.max_percentage = cfg.max_percentage
      · by_cases h3 : raw.max_gap_length = cfg.max_gap_length
        · rcases h with h | h | h <;> [exact absurd h2 h; exact absurd h3 h; exact absurd h1 h]
        · simp [regenerate_previous_results, h1, h2, h3]
      · simp [regenerate_previous_results, h1, h2]
    · simp [regenerate_previous_results, h1]
  · intro h
    simp [regenerate_previous_results, h.1, h.2.1, h.2.2]

/-- Witness for C2: the serialized fixture document is rejected once the
current `MAX_PERCENTAGE` is raised by 5, and accepted with the unchanged
configuration and matching record. -/
theorem regenerate_cache_validity_witness :
    regenerate_previous_results (testResults.to_json defaultConfig) testRecord
      { max_percentage := 19, max_gap_length := 2 } = none
    ∧ (regenerate_previous_results (testResults.to_json defaultConfig) testRecord
        defaultConfig).isSome = true :=
  ⟨(regenerate_cache_validity (testResults.to_json defaultConfig) testRecord
      { max_percentage := 19, max_gap_length := 2 }).1 (Or.inl (by decide)),
   (regenerate_cache_validity (testResults.to_json defaultConfig) testRecord defaultConfig).2
      ⟨by decide, by decide, by decide⟩⟩

/-- C3: `run_on_record` fast path — a previous result whose `record_id`
matches the record is returned unchanged whatever the detection strategy is
(so detection is not invoked); with a mismatching or absent previous result,
the detection pipeline is invoked and its result carries the input record's
identifier. -/
theorem run_on_record_fast_path (detectFn : Record → Config → CassisResults)
    (oracle : String → List ClusterPrediction) (record : Record) (prev : CassisResults)
    (cfg : Config) :
    (prev.record_id = record.id → run_on_record detectFn record (some prev) cfg = prev)
    ∧ (prev.record_id ≠ record.id →
        run_on_record (detect oracle) record (some prev) cfg = detect oracle record cfg
        ∧ (run_on_record (detect oracle) record (some prev) cfg).record_id = record.id)
    ∧ run_on_record (detect oracle) record none cfg = detect oracle record cfg
    ∧ (run_on_record (detect oracle) record none cfg).record_id = record.id := by
  refine ⟨fun h => ?_, fun h => ?_, rfl, rfl⟩
  · simp [run_on_record, h]
  · constructor <;> simp [run_on_record, h, detect]

/-- Witness for C3: on a record with identifier `"real"`, a matching previous
result is returned unchanged even under a detection strategy stamping
`"fake"`, and with no previous result the pipeline's answer carries
`"real"`. -/
theorem run_on_record_fast_path_witness :
    ({ record_id := "real" } : CassisResults).record_id
      = ({ testRecord with id := "real" } : Record).id
    ∧ run_on_record (fun _ _ => { record_id := "fake" }) { testRecord with id := "real" }
        (some { record_id := "real" }) defaultConfig = { record_id := "real" }
    ∧ (run_on_record (detect fun _ => []) { testRecord with id := "real" } none
        defaultConfig).record_id = "real" :=
  ⟨by decide,
   (run_on_record_fast_path (fun _ _ => { record_id := "fake" }) (fun _ => [])
      { testRecord with id := "real" } { record_id := "real" } defaultConfig).1 (by decide),
   (run_on_record_fast_path (fun _ _ => { record_id := "fake" }) (fun _ => [])
      { testRecord with id := "real" } { record_id := "real" } defaultConfig).2.2.2⟩

/-- The kept genes form a subsequence of the examined genes. -/
theorem ignoreGo_fst_sublist (l : List Gene) : ∀ kept, (ignoreGo kept l).1.Sublist l := by
  induction l with
  | nil => intro kept; simp [ignoreGo]
  | cons g rest ih =>
    intro kept
    by_cases h : kept.any (fun k => overlaps k g) = true
    · simpa [ignoreGo, h] using (ih kept).cons g
    · simpa [ignoreGo, h] using (ih (kept ++ [g])).cons₂ g

/-- The ignored genes form a subsequence of the examined genes. -/
theorem ignoreGo_snd_sublist (l : List Gene) : ∀ kept, (ignoreGo kept l).2.Sublist l := by
  induction l with
  | nil => intro kept; simp [ignoreGo]
  | cons g rest ih =>
    intro kept
    by_cases h : kept.any (fun k => overlaps k g) = true
    · simpa [ignoreGo, h] using (ih kept).cons₂ g
    · simpa [ignoreGo, h] using (ih (kept ++ [g])).cons g

/-- Every examined gene lands in exactly one of the two output sequences:
the input is a permutation of kept-then-ignored. -/
theorem ignoreGo_perm (l : List Gene) :
    ∀ kept, l.Perm ((ignoreGo kept l).1 ++ (ignoreGo kept l).2) := by
  induction l with
  | nil => intro kept; simp [ignoreGo]
  | cons g rest ih =>
    intro kept
    by_cases h : kept.any (fun k => overlaps k g) = true
    · simp only [ignoreGo, h, if_true]
      exact ((ih kept).cons g).trans List.perm_middle.symm
    · simp only [ignoreGo, h, if_false, Bool.false_eq_true]
      exact (ih (kept ++ [g])).cons g

/-- C5: on every ordered gene sequence, `ignore_overlapping` returns two
disjoint subsequences of the input, each in input order, which together
re-sorted by original order give back the input; a gene goes to the ignored
sequence exactly when it overlaps a gene already accepted into the kept
sequence at the time it is examined, and the empty input yields two empty
sequences. -/
theorem ignore_overlapping_spec :
    ignore_overlapping [] = ([], [])
    ∧ (∀ genes : List Gene,
        (ignore_overlapping genes).1.Sublist genes
        ∧ (ignore_overlapping genes).2.Sublist genes
        ∧ genes.Perm ((ignore_overlapping genes).1 ++ (ignore_overlapping genes).2))
    ∧ (∀ (kept : List Gene) (g : Gene) (rest : List Gene),
        ((∃ k ∈ kept, overlaps k g = true) →
          ignoreGo kept (g :: rest) = ((ignoreGo kept rest).1, g :: (ignoreGo kept rest).2))
        ∧ ((∀ k ∈ kept, overlaps k g = false) →
          ignoreGo kept (g :: rest)
            = (g :: (ignoreGo (kept ++ [g]) rest).1, (ignoreGo (kept ++ [g]) rest).2))) := by
  refine ⟨rfl, fun genes => ⟨ignoreGo_fst_sublist genes [], ignoreGo_snd_sublist genes [],
    ignoreGo_perm genes []⟩, fun kept g rest => ⟨fun h => ?_, fun h => ?_⟩⟩
  · have ha : kept.any (fun k => overlaps k g) = true := List.any_eq_true.mpr h
    simp [ignoreGo, ha]
  · have ha : kept.any (fun k => overlaps k g) = false := by
      rw [List.any_eq_false]
      intro k hk
      simp [h k hk]
    simp [ignoreGo, ha]

/-- Witness for C5: with gene1 already kept, the overlapping gene2 of the
fixture is routed to the ignored sequence. -/
theorem ignore_overlapping_spec_witness :
    (∃ k ∈ [({ locus_tag := "gene1", start := 100, stop := 300, strand := 1 } : Gene)],
        overlaps k { locus_tag := "gene2", start := 101, stop := 299, strand := -1 } = true)
    ∧ ignoreGo [{ locus_tag := "gene1", start := 100, stop := 300, strand := 1 }]
        [{ locus_tag := "gene2", start := 101, stop := 299, strand := -1 }]
      = ([], [{ locus_tag := "gene2", start := 101, stop := 299, strand := -1 }]) :=
  ⟨⟨{ locus_tag := "gene1", start := 100, stop := 300, strand := 1 }, by decide, by decide⟩,
   (ignore_overlapping_spec.2.2 [{ locus_tag := "gene1", start := 100, stop := 300, strand := 1 }]
      { locus_tag := "gene2", start := 101, stop := 299, strand := -1 } []).1
     ⟨{ locus_tag := "gene1", start := 100, stop := 300, strand := 1 }, by decide, by decide⟩⟩

/-- A directory survives one filtered tree exactly when it was present and
its gene, if an anchor gene, keeps the pairing among its own accepted
predictions' pairings. -/
theorem mem_filter_keepDir (anchors : List String)
    (preds : List (String × List ClusterPrediction)) (t : List (String × String))
    (d : String × String) :
    d ∈ t.filter (keepDir anchors preds) ↔
      d ∈ t ∧ (d.1 ∈ anchors → d.2 ∈ acceptedPairings preds d.1) := by
  rw [List.mem_filter]
  refine and_congr_right fun _ => ?_
  unfold keepDir
  by_cases h : d.1 ∈ anchors
  · simp [List.elem_iff.mpr h, List.elem_iff, h]
  · simp [h, fun hc => h (List.elem_iff.mp hc)]

/-- C7 (amended): `cleanup_outdir` deletes every `meme/<gene>/<pairing>` and
`fimo/<gene>/<pairing>` working directory of an anchor gene whose pairing is
not among the pairing strings of the start or end motifs of the accepted
predictions anchored at that same gene, retains those whose pairing is, and
— since a gene without accepted predictions of its own accepts no pairing —
deletes an anchor gene's directories entirely when no accepted prediction is
anchored at it, even if that gene occurs as the start or end marker gene of
another anchor's prediction. -/
theorem cleanup_outdir_spec (anchors : List String)
    (preds : List (String × List ClusterPrediction))
    (memeDirs fimoDirs : List (String × String)) (d : String × String) :
    (d ∈ (cleanup_outdir anchors preds memeDirs fimoDirs).1 ↔
      d ∈ memeDirs ∧ (d.1 ∈ anchors → d.2 ∈ acceptedPairings preds d.1))
    ∧ (d ∈ (cleanup_outdir anchors preds memeDirs fimoDirs).2 ↔
      d ∈ fimoDirs ∧ (d.1 ∈ anchors → d.2 ∈ acceptedPairings preds d.1)) :=
  ⟨mem_filter_keepDir anchors preds memeDirs d, mem_filter_keepDir anchors preds fimoDirs d⟩

/-- Witness for C7: in the cleanup test scenario the directory
`meme/gene1/+03_-03` — gene1 being the anchor of the accepted prediction with
that pairing — survives cleanup. -/
theorem cleanup_outdir_spec_witness :
    ("gene1", "+03_-03")
      ∈ (cleanup_outdir ["gene1", "gene4"] [("gene1", [cleanupCluster])]
          testDirTree testDirTree).1 :=
  (cleanup_outdir_spec ["gene1", "gene4"] [("gene1", [cleanupCluster])] testDirTree testDirTree
      ("gene1", "+03_-03")).1.mpr ⟨by decide, fun _ => by decide⟩

/-- Counterexample to C7 as stated: the pair `(gene4, "+03_-03")` is exactly
the `(gene, pairing_string)` of the end marker of the accepted prediction,
and its directory exists on disk, yet `cleanup_outdir` deletes it from both
the `meme/` and the `fimo/` tree (the prediction is anchored at gene1, and
gene4 has no accepted prediction of its own). -/
theorem cleanup_deletes_end_marker_dir :
    cleanupCluster.stop.gene = "gene4"
    ∧ cleanupCluster.stop.motif.pairing_string = "+03_-03"
    ∧ ("gene4", "+03_-03") ∈ testDirTree
    ∧ ("gene4", "+03_-03")
        ∉ (cleanup_outdir ["gene1", "gene4"] [("gene1", [cleanupCluster])]
            testDirTree testDirTree).1
    ∧ ("gene4", "+03_-03")
        ∉ (cleanup_outdir ["gene1", "gene4"] [("gene1", [cleanupCluster])]
            testDirTree testDirTree).2 := by
  decide

/-- C6 (amended): for a gene that is not merged into a combined promoter and
whose raw window does not reach into a neighbouring gene's body, the promoter
emitted by the `get_promoters` traversal is exactly the raw window
`[tss - upstream, tss + downstream]` laid out along the transcription
direction, clipped to the record's coordinate range; otherwise the window is
truncated at the neighbouring gene's boundary or merged. -/
theorem promoter_raw_window (len : Nat) (up down : Int) (prev : Option Gene) (g : Gene)
    (rest : List Gene)
    (hm : mergedWithPrev up prev g = false)
    (hplus : g.strand = 1 → ∀ p, prev = some p → (p.stop : Int) < g.tss - up)
    (hminus : g.strand ≠ 1 → ∀ h, rest.head? = some h →
      facingOverlap up g h = false ∧ g.tss + up < (h.start : Int)) :
    promotersAux len up down prev (g :: rest)
      = { gene_name := g.locus_tag, second_gene := none,
          start := clip len (if g.strand = 1 then g.tss - up else g.tss - down),
          stop := clip len (if g.strand = 1 then g.tss + down else g.tss + up),
          seq := "" } :: promotersAux len up down (some g) rest := by
  simp only [promotersAux, hm, Bool.false_eq_true, if_false]
  congr 1
  by_cases hs : g.strand = 1
  · cases prev with
    | none => simp [buildPromoter, hs]
    | some p =>
      have hlt := hplus hs p rfl
      have hno : ¬ (g.tss - up ≤ (p.stop : Int)) := by omega
      simp [buildPromoter, hs, hno]
  · cases hh : rest.head? with
    | none => simp [buildPromoter, hs, hh]
    | some h =>
      obtain ⟨hf, hlt⟩ := hminus hs h hh
      have hno : ¬ ((h.start : Int) ≤ g.tss + up) := by omega
      simp [buildPromoter, hs, hh, hf, hno]

/-- Witness for C6 (amended): the fixture's gene1 (plus strand, no left
neighbour, right neighbour far away) receives exactly its clipped raw
window. -/
theorem promoter_raw_window_witness :
    mergedWithPrev 1000 none { locus_tag := "gene1", start := 100, stop := 300, strand := 1 }
      = false
    ∧ promotersAux 9604 1000 50 none
        [{ locus_tag := "gene1", start := 100, stop := 300, strand := 1 }]
      = { gene_name := Gene.locus_tag { locus_tag := "gene1", start := 100, stop := 300, strand := 1 },
          second_gene := none,
          start := clip 9604
            (if Gene.strand { locus_tag := "gene1", start := 100, stop := 300, strand := 1 } = 1
              then Gene.tss { locus_tag := "gene1", start := 100, stop := 300, strand := 1 } - 1000
              else Gene.tss { locus_tag := "gene1", start := 100, stop := 300, strand := 1 } - 50),
          stop := clip 9604
            (if Gene.strand { locus_tag := "gene1", start := 100, stop := 300, strand := 1 } = 1
              then Gene.tss { locus_tag := "gene1", start := 100, stop := 300, strand := 1 } + 50
              else Gene.tss { locus_tag := "gene1", start := 100, stop := 300, strand := 1 } + 1000),
          seq := "" }
        :: promotersAux 9604 1000 50
            (some { locus_tag := "gene1", start := 100, stop := 300, strand := 1 }) [] :=
  ⟨by decide,
   promoter_raw_window 9604 1000 50 none
     { locus_tag := "gene1", start := 100, stop := 300, strand := 1 } [] (by decide)
     (fun _ p hp => by simp at hp) (fun _ h hh => by simp at hh)⟩

/-- Counterexample to C6 as stated: in the fixture run the promoter emitted
for gene4 is `[301, 550]` — its start truncated to just past gene1's body —
while the claim's formula `[tss - upstream, tss + downstream]` clipped to the
record range starts at 0. -/
theorem promoter_not_raw_for_gene4 :
    ((get_promoters testRecord (ignore_overlapping testRecord.genes).1 1000 50).map
        (fun p => (p.gene_name, p.start, p.stop)))[1]? = some ("gene4", 301, 550)
    ∧ clip testRecord.seqLength
        (Gene.tss { locus_tag := "gene4", start := 500, stop := 1000, strand := 1, core := true }
          - 1000) = 0
    ∧ (301 : Nat) ≠ 0 := by
  decide
